import Mathlib

/-!
Shallow embedding of the 6502 CPU interpreter from `src/cpu.rs` and the
opcode table from `src/hardware/opcode.rs`.

Machine integers are modelled as `Nat` with explicit `% 256` / `% 65536`
where the Rust code wraps.  Operations that can panic in the Rust source
(out-of-bounds array indexing, `todo!()`, `unreachable!()`,
`panic!` in `get_operand_address`, failed opcode lookup) return `none`.
The source's RAM is `[u8; 0xFFFF]` — an array of 0xFFFF (65535) bytes —
so any index must be `< 0xFFFF`.
-/

namespace NesEmu

set_option maxRecDepth 8192

/-- Mirrors `enum Instruction` in `src/hardware/opcode.rs`. -/
inductive Instruction where
  | ADC | AND | ASL | BCC | BCS | BEQ | BIT | BMI | BNE | BPL | BRK | BVC | BVS
  | CLC | CLI | CLV | CMP | CPX | CPY | DEC | DEX | DEY | EOR | INC | INX | INY
  | JMP | JSR | LDA | LDX | LDY | LSR | NOP | ORA | PHA | PHP | PLA | PLP
  | ROL | ROR | RTI | RTS | SBC | SEC | SEI | STA | STX | STY
  | TAX | TAY | TSX | TXA | TXS | TYA
  deriving DecidableEq

/-- Mirrors `enum AddressingMode` in `src/hardware/opcode.rs`.
`Other` stands for Implied, Relative or Accumulator. -/
inductive AddressingMode where
  | Immediate | ZeroPage | ZeroPageX | ZeroPageY
  | Absolute | AbsoluteX | AbsoluteY | IndirectX | IndirectY | Other
  deriving DecidableEq

/-- Mirrors `struct OpCode` in `src/hardware/opcode.rs`. -/
structure OpCode where
  code : Nat
  instruction : Instruction
  len : Nat
  cycles : Nat
  addressing_mode : AddressingMode

namespace OpCode

/-- Mirrors `OpCode::new(code, instruction, bytes, cycles, addressing_mode)`. -/
def new (code : Nat) (instruction : Instruction) (bytes cycles : Nat)
    (addressing_mode : AddressingMode) : OpCode :=
  ⟨code, instruction, bytes, cycles, addressing_mode⟩

end OpCode

open Instruction AddressingMode in
/-- Transcription of the `CPU_OP_CODES` table in `src/hardware/opcode.rs`
(149 entries, in source order; note the source lists the `ROR` opcode
bytes 0x6A/0x66/0x76/0x6E/0x7E with mnemonic `ROL`). -/
def CPU_OP_CODES : List OpCode := [
  OpCode.new 0x69 ADC 2 2 Immediate,
  OpCode.new 0x65 ADC 2 3 ZeroPage,
  OpCode.new 0x75 ADC 2 4 ZeroPageX,
  OpCode.new 0x6D ADC 3 4 Absolute,
  OpCode.new 0x7D ADC 3 4 AbsoluteX,
  OpCode.new 0x79 ADC 3 4 AbsoluteY,
  OpCode.new 0x61 ADC 2 6 IndirectX,
  OpCode.new 0x71 ADC 2 5 IndirectY,
  OpCode.new 0x29 AND 2 2 Immediate,
  OpCode.new 0x25 AND 2 3 ZeroPage,
  OpCode.new 0x35 AND 2 4 ZeroPageX,
  OpCode.new 0x2D AND 3 4 Absolute,
  OpCode.new 0x3D AND 3 4 AbsoluteX,
  OpCode.new 0x39 AND 3 4 AbsoluteY,
  OpCode.new 0x21 AND 2 6 IndirectX,
  OpCode.new 0x31 AND 2 5 IndirectY,
  OpCode.new 0x0A ASL 1 2 Other,
  OpCode.new 0x06 ASL 2 5 ZeroPage,
  OpCode.new 0x16 ASL 2 6 ZeroPageX,
  OpCode.new 0x0E ASL 3 6 Absolute,
  OpCode.new 0x1E ASL 3 7 AbsoluteX,
  OpCode.new 0x90 BCC 2 2 Other,
  OpCode.new 0xB0 BCS 2 2 Other,
  OpCode.new 0xF0 BEQ 2 2 Other,
  OpCode.new 0x24 BIT 2 3 ZeroPage,
  OpCode.new 0x2C BIT 3 4 Absolute,
  OpCode.new 0x30 BMI 2 2 Other,
  OpCode.new 0xD0 BNE 2 2 Other,
  OpCode.new 0x10 BPL 2 2 Other,
  OpCode.new 0x00 BRK 0 7 Other,
  OpCode.new 0x50 BVC 2 2 Other,
  OpCode.new 0x70 BVS 2 2 Other,
  OpCode.new 0x18 CLC 1 2 Other,
  OpCode.new 0x58 CLI 1 2 Other,
  OpCode.new 0xB8 CLV 1 2 Other,
  OpCode.new 0xC9 CMP 2 2 Immediate,
  OpCode.new 0xC5 CMP 2 3 ZeroPage,
  OpCode.new 0xD5 CMP 2 4 ZeroPageX,
  OpCode.new 0xCD CMP 3 4 Absolute,
  OpCode.new 0xDD CMP 3 4 AbsoluteX,
  OpCode.new 0xD9 CMP 3 4 AbsoluteY,
  OpCode.new 0xC1 CMP 2 6 IndirectX,
  OpCode.new 0xD1 CMP 2 5 IndirectY,
  OpCode.new 0xE0 CPX 2 2 Immediate,
  OpCode.new 0xE4 CPX 2 3 ZeroPage,
  OpCode.new 0xEC CPX 3 4 Absolute,
  OpCode.new 0xC0 CPY 2 2 Immediate,
  OpCode.new 0xC4 CPY 2 3 ZeroPage,
  OpCode.new 0xCC CPY 3 4 Absolute,
  OpCode.new 0xC6 DEC 2 5 ZeroPage,
  OpCode.new 0xD6 DEC 2 6 ZeroPageX,
  OpCode.new 0xCE DEC 3 6 Absolute,
  OpCode.new 0xDE DEC 4 7 AbsoluteX,
  OpCode.new 0xCA DEX 1 2 Other,
  OpCode.new 0x88 DEY 1 2 Other,
  OpCode.new 0x49 EOR 2 2 Immediate,
  OpCode.new 0x45 EOR 2 3 ZeroPage,
  OpCode.new 0x55 EOR 2 4 ZeroPageX,
  OpCode.new 0x4D EOR 3 4 Absolute,
  OpCode.new 0x5D EOR 3 4 AbsoluteX,
  OpCode.new 0x59 EOR 3 4 AbsoluteY,
  OpCode.new 0x41 EOR 2 6 IndirectX,
  OpCode.new 0x51 EOR 2 5 IndirectY,
  OpCode.new 0xE6 INC 2 5 ZeroPage,
  OpCode.new 0xF6 INC 2 6 ZeroPageX,
  OpCode.new 0xEE INC 3 6 Absolute,
  OpCode.new 0xFE INC 3 5 AbsoluteX,
  OpCode.new 0xE8 INX 1 2 Other,
  OpCode.new 0xC8 INY 1 2 Other,
  OpCode.new 0x4C JMP 3 3 Absolute,
  OpCode.new 0x6C JMP 3 5 Other,
  OpCode.new 0x20 JSR 3 6 Absolute,
  OpCode.new 0xA9 LDA 2 2 Immediate,
  OpCode.new 0xA5 LDA 2 3 ZeroPage,
  OpCode.new 0xB5 LDA 2 4 ZeroPageX,
  OpCode.new 0xAD LDA 3 4 Absolute,
  OpCode.new 0xBD LDA 3 4 AbsoluteX,
  OpCode.new 0xB9 LDA 3 4 AbsoluteY,
  OpCode.new 0xA1 LDA 2 6 IndirectX,
  OpCode.new 0xB1 LDA 2 5 IndirectY,
  OpCode.new 0xA2 LDX 2 2 Immediate,
  OpCode.new 0xA6 LDX 2 3 ZeroPage,
  OpCode.new 0xB2 LDX 2 4 ZeroPageY,
  OpCode.new 0xAE LDX 3 4 Absolute,
  OpCode.new 0xBE LDX 3 4 AbsoluteY,
  OpCode.new 0xA0 LDY 2 2 Immediate,
  OpCode.new 0xA4 LDY 2 3 ZeroPage,
  OpCode.new 0xB4 LDY 2 4 ZeroPageX,
  OpCode.new 0xAC LDY 3 4 Absolute,
  OpCode.new 0xBC LDY 3 4 AbsoluteX,
  OpCode.new 0x4A LSR 1 2 Other,
  OpCode.new 0x46 LSR 2 5 ZeroPage,
  OpCode.new 0x56 LSR 2 6 ZeroPageY,
  OpCode.new 0x4E LSR 3 6 Absolute,
  OpCode.new 0x5E LSR 3 7 AbsoluteX,
  OpCode.new 0xEA NOP 1 2 Other,
  OpCode.new 0x09 ORA 2 2 Immediate,
  OpCode.new 0x05 ORA 2 3 ZeroPage,
  OpCode.new 0x15 ORA 2 4 ZeroPageX,
  OpCode.new 0x0D ORA 3 4 Absolute,
  OpCode.new 0x1D ORA 3 4 AbsoluteX,
  OpCode.new 0x19 ORA 3 4 AbsoluteY,
  OpCode.new 0x01 ORA 2 6 IndirectX,
  OpCode.new 0x11 ORA 2 5 IndirectY,
  OpCode.new 0x48 PHA 1 3 Other,
  OpCode.new 0x08 PHP 1 3 Other,
  OpCode.new 0x68 PLA 1 4 Other,
  OpCode.new 0x28 PLP 1 4 Other,
  OpCode.new 0x2A ROL 1 2 Other,
  OpCode.new 0x26 ROL 2 5 ZeroPage,
  OpCode.new 0x36 ROL 2 6 ZeroPageX,
  OpCode.new 0x2E ROL 3 6 Absolute,
  OpCode.new 0x3E ROL 3 7 AbsoluteY,
  OpCode.new 0x6A ROL 1 2 Other,
  OpCode.new 0x66 ROL 2 5 ZeroPage,
  OpCode.new 0x76 ROL 2 6 ZeroPageX,
  OpCode.new 0x6E ROL 3 6 Absolute,
  OpCode.new 0x7E ROL 3 7 AbsoluteY,
  OpCode.new 0x40 RTI 1 6 Other,
  OpCode.new 0x60 RTS 1 6 Other,
  OpCode.new 0xE9 SBC 2 2 Immediate,
  OpCode.new 0xE5 SBC 2 3 ZeroPage,
  OpCode.new 0xF5 SBC 2 4 ZeroPageX,
  OpCode.new 0xED SBC 3 4 Absolute,
  OpCode.new 0xFD SBC 3 4 AbsoluteX,
  OpCode.new 0xF9 SBC 3 4 AbsoluteY,
  OpCode.new 0xE1 SBC 2 6 IndirectX,
  OpCode.new 0xF1 SBC 2 5 IndirectY,
  OpCode.new 0x38 SEC 1 2 Other,
  OpCode.new 0x78 SEI 1 2 Other,
  OpCode.new 0x85 STA 2 3 ZeroPage,
  OpCode.new 0x95 STA 2 4 ZeroPageX,
  OpCode.new 0x8D STA 3 4 Absolute,
  OpCode.new 0x9D STA 3 5 AbsoluteX,
  OpCode.new 0x99 STA 3 5 AbsoluteY,
  OpCode.new 0x81 STA 2 6 IndirectX,
  OpCode.new 0x91 STA 2 6 IndirectY,
  OpCode.new 0x86 STX 2 3 ZeroPage,
  OpCode.new 0x96 STX 2 4 ZeroPageY,
  OpCode.new 0x8E STX 3 4 Absolute,
  OpCode.new 0x84 STY 2 3 ZeroPage,
  OpCode.new 0x94 STY 2 4 ZeroPageX,
  OpCode.new 0x8C STY 3 4 Absolute,
  OpCode.new 0xAA TAX 1 2 Other,
  OpCode.new 0xA8 TAY 1 2 Other,
  OpCode.new 0xBA TSX 1 2 Other,
  OpCode.new 0x8A TXA 1 2 Other,
  OpCode.new 0x9A TXS 1 2 Other,
  OpCode.new 0x98 TYA 1 2 Other]

/-- `CPU_OPS_CODES.get(&opscode)` — the `HashSet` is keyed by the `code`
byte (`Equivalent<OpCode> for u8`); with no duplicate code bytes in the
table this is first-match lookup. -/
def opcodeLookup (b : Nat) : Option OpCode :=
  CPU_OP_CODES.find? (fun op => op.code == b)

/-- Flag constants of `CpuStatus` (`src/cpu.rs`). -/
def CARRY : Nat := 0x01
def ZERO : Nat := 0x02
def INTERRUPT : Nat := 0x04
def DECIMAL_MODE : Nat := 0x08
def BREAK : Nat := 0x10
def OVERFLOW : Nat := 0x40
def NEGATIVE : Nat := 0x80

/-- The union of all flag bits known to `CpuStatus` — note bit 5 (0x20)
is not a declared flag. -/
def ALL_FLAGS : Nat := 0xDF

/-- bitflags `insert`: `bits | other`. -/
def statusInsert (p f : Nat) : Nat := p ||| f

/-- bitflags `remove`: `bits & !other` on a `u8`. -/
def statusRemove (p f : Nat) : Nat := p &&& (255 ^^^ f)

/-- bitflags `set(flag, b)`. -/
def statusSet (p f : Nat) (b : Bool) : Nat :=
  if b then statusInsert p f else statusRemove p f

/-- bitflags `contains`: all bits of `f` present in `p`. -/
def statusContains (p f : Nat) : Bool := p &&& f == f

/-- bitflags `from_bits_truncate`: keep only the declared flag bits. -/
def from_bits_truncate (v : Nat) : Nat := v &&& ALL_FLAGS

/-- `CpuStatus::update_zero_and_negative_flags`. -/
def update_zero_and_negative_flags (p value : Nat) : Nat :=
  statusSet (statusSet p ZERO (value == 0)) NEGATIVE (value &&& 0x80 != 0)

def STACK_RESET : Nat := 0xFF
def STACK : Nat := 0x0100

/-- The length of the source's RAM array `memory: [u8; 0xFFFF]` —
65535 bytes, indices `0x0000 ..= 0xFFFE`. -/
def MEM_LEN : Nat := 0xFFFF

/-- Mirrors `struct CPU` in `src/cpu.rs`.  The RAM array is modelled as a
total function; every access goes through the bounds-checked
`mem_read` / `mem_write`, which mirror the array indexing. -/
structure CPU where
  register_a : Nat
  register_x : Nat
  register_y : Nat
  status : Nat
  program_counter : Nat
  stack_pointer : Nat
  memory : Nat → Nat

/-- `CPU::default()`. -/
def cpuDefault : CPU :=
  { register_a := 0, register_x := 0, register_y := 0, status := 0,
    program_counter := 0, stack_pointer := STACK_RESET, memory := fun _ => 0 }

/-- `CPU::mem_read` — `self.memory[addr as usize]`; the index must be
within the 0xFFFF-byte array or the Rust code panics. -/
def mem_read (c : CPU) (addr : Nat) : Option Nat :=
  if addr < MEM_LEN then some (c.memory addr) else none

/-- `CPU::mem_write` — `self.memory[addr as usize] = data`. -/
def mem_write (c : CPU) (addr data : Nat) : Option CPU :=
  if addr < MEM_LEN then
    some { c with memory := fun a => if a = addr then data else c.memory a }
  else none

/-- `CPU::mem_read_u16` — reads `lo` at `pos`, `hi` at `pos + 1` and
returns `u16::from_be_bytes([hi, lo]) = hi * 256 + lo`. -/
def mem_read_u16 (c : CPU) (pos : Nat) : Option Nat := do
  let lo ← mem_read c pos
  let hi ← mem_read c ((pos + 1) % 65536)
  pure (lo + 256 * hi)

/-- `CPU::mem_write_u16` — low byte at `pos`, high byte at `pos + 1`. -/
def mem_write_u16 (c : CPU) (pos data : Nat) : Option CPU := do
  let c1 ← mem_write c pos (data % 256)
  mem_write c1 ((pos + 1) % 65536) (data / 256 % 256)

/-- `CPU::stack_push` — write at `STACK + sp`, then `sp ← sp - 1 (mod 256)`. -/
def stack_push (c : CPU) (value : Nat) : Option CPU := do
  let c1 ← mem_write c (STACK + c.stack_pointer) value
  pure { c1 with stack_pointer := (c1.stack_pointer + 255) % 256 }

/-- `CPU::stack_push_u16` — pushes the low byte first, then the high byte. -/
def stack_push_u16 (c : CPU) (value : Nat) : Option CPU := do
  let c1 ← stack_push c (value % 256)
  stack_push c1 (value / 256 % 256)

/-- `CPU::stack_pop` — `sp ← sp + 1 (mod 256)`, then read at `STACK + sp`. -/
def stack_pop (c : CPU) : Option (Nat × CPU) :=
  let sp := (c.stack_pointer + 1) % 256
  (mem_read c (STACK + sp)).map (fun v => (v, { c with stack_pointer := sp }))

/-- `CPU::stack_pop_u16` — pops `lo` then `hi` and returns
`u16::from_le_bytes([hi, lo]) = hi + 256 * lo` (note the source's
variable swap). -/
def stack_pop_u16 (c : CPU) : Option (Nat × CPU) := do
  let (lo, c1) ← stack_pop c
  let (hi, c2) ← stack_pop c1
  pure (hi + 256 * lo, c2)

/-- `CPU::reset`. -/
def reset (c : CPU) : Option CPU := do
  let c1 : CPU := { c with register_a := 0, register_x := 0, register_y := 0,
                           stack_pointer := STACK_RESET, status := 0 }
  let pc ← mem_read_u16 c1 0xFFFC
  pure { c1 with program_counter := pc }

/-- `CPU::load` — copies the program to `0x8000..` (the slice operation
panics if the copy would run past the end of the 0xFFFF-byte array) and
writes the reset vector `0x8000` at `0xFFFC`. -/
def load (c : CPU) (program : List Nat) : Option CPU :=
  if 0x8000 + program.length ≤ MEM_LEN then
    mem_write_u16
      { c with memory := fun a =>
          if 0x8000 ≤ a ∧ a < 0x8000 + program.length then program.getD (a - 0x8000) 0
          else c.memory a }
      0xFFFC 0x8000
  else none

/-- `CPU::set_register_a`. -/
def set_register_a (c : CPU) (value : Nat) : CPU :=
  { c with register_a := value,
           status := update_zero_and_negative_flags c.status value }

/-- `CPU::set_register_x`. -/
def set_register_x (c : CPU) (value : Nat) : CPU :=
  { c with register_x := value,
           status := update_zero_and_negative_flags c.status value }

/-- `CPU::set_register_y`. -/
def set_register_y (c : CPU) (value : Nat) : CPU :=
  { c with register_y := value,
           status := update_zero_and_negative_flags c.status value }

/-- `CPU::add_to_register_a`. -/
def add_to_register_a (c : CPU) (data : Nat) : CPU :=
  let sum := c.register_a + data + (if statusContains c.status CARRY then 1 else 0)
  let st1 := statusSet c.status CARRY (sum > 0xFF)
  let result := sum % 256
  let overflow := (c.register_a ^^^ result) &&& (data ^^^ result) &&& 0x80 != 0
  set_register_a { c with status := statusSet st1 OVERFLOW overflow } result

/-- `CPU::get_operand_address` — `AddressingMode::Other` panics in the
source. -/
def get_operand_address (c : CPU) (mode : AddressingMode) : Option Nat :=
  match mode with
  | .Immediate => some c.program_counter
  | .ZeroPage => mem_read c c.program_counter
  | .ZeroPageX =>
      (mem_read c c.program_counter).map (fun pos => (pos + c.register_x) % 256)
  | .ZeroPageY =>
      (mem_read c c.program_counter).map (fun pos => (pos + c.register_y) % 256)
  | .Absolute => mem_read_u16 c c.program_counter
  | .AbsoluteX =>
      (mem_read_u16 c c.program_counter).map
        (fun base => (base + c.register_x) % 65536)
  | .AbsoluteY =>
      (mem_read_u16 c c.program_counter).map
        (fun base => (base + c.register_y) % 65536)
  | .IndirectX => do
      let base ← mem_read c c.program_counter
      let ptr := (base + c.register_x) % 256
      let lo ← mem_read c ptr
      let hi ← mem_read c ((ptr + 1) % 256)
      pure (lo + 256 * hi)
  | .IndirectY => do
      let base ← mem_read c c.program_counter
      let lo ← mem_read c base
      let hi ← mem_read c ((base + 1) % 256)
      pure ((lo + 256 * hi + c.register_y) % 65536)
  | .Other => none

/-- The `PHP` arm of `CPU::run`: push the raw status byte. -/
def execPHP (c : CPU) : Option CPU := stack_push c c.status

/-- The `PLP` arm of `CPU::run`: pop and `from_bits_truncate` into `P`. -/
def execPLP (c : CPU) : Option CPU :=
  (stack_pop c).map (fun p => { p.2 with status := from_bits_truncate p.1 })

/-- The `TSX` arm of `CPU::run`: it pops a byte from the stack into `X`. -/
def execTSX (c : CPU) : Option CPU :=
  (stack_pop c).map (fun p => set_register_x p.2 p.1)

/-- Outcome of one iteration of the `CPU::run` loop: either continue with
the new state, or (on `BRK`) return from `run` with the final state. -/
inductive StepOut where
  | next (c : CPU)
  | halt (c : CPU)

/-- The CPU state carried by a `StepOut`. -/
def outCPU : StepOut → CPU
  | .next c => c
  | .halt c => c

/-- Shared shape of the `ASL`/`LSR`/`ROL`/`ROR` arms: fetch the input
(accumulator when the mode is `Other`, memory otherwise), combine through
`f : status → value → (newStatus, newValue)`, and write back. -/
def shiftArm (c : CPU) (mode : AddressingMode)
    (f : Nat → Nat → Nat × Nat) : Option CPU :=
  if mode = .Other then
    some (set_register_a { c with status := (f c.status c.register_a).1 }
      (f c.status c.register_a).2)
  else do
    let addr ← get_operand_address c mode
    let value ← mem_read c addr
    let c1 ← mem_write { c with status := (f c.status value).1 } addr
      (f c.status value).2
    pure { c1 with status :=
      update_zero_and_negative_flags c1.status (f c.status value).2 }

/-- The body of the `match &command.instruction` in `CPU::run`:
executes one decoded instruction (before the final
`program_counter += len - 1`).  Arms the source does not implement
(`BCC/BCS/BEQ/BMI/BNE/BPL/BVC/BVS/TXS/TYA` fall into `_ => todo!()`)
and panicking paths return `none`. -/
def execBody (c : CPU) (command : OpCode) : Option StepOut := do
  let mode := command.addressing_mode
  match command.instruction with
  | .ADC => do
      let addr ← get_operand_address c mode
      let value ← mem_read c addr
      pure (.next (add_to_register_a c value))
  | .ASL =>
      (shiftArm c mode (fun st value =>
        (statusSet st CARRY (value / 128 == 1), value * 2 % 256))).map .next
  | .AND => do
      let addr ← get_operand_address c mode
      let value ← mem_read c addr
      pure (.next (set_register_a c (c.register_a &&& value)))
  | .BIT => do
      let addr ← get_operand_address c mode
      let value ← mem_read c addr
      let st := update_zero_and_negative_flags c.status value
      pure (.next { c with status := statusSet st OVERFLOW (value &&& 0x40 != 0) })
  | .BRK =>
      pure (.halt { c with status := statusInsert c.status BREAK })
  | .CLC => pure (.next { c with status := statusRemove c.status CARRY })
  | .CLI => pure (.next { c with status := statusRemove c.status INTERRUPT })
  | .CLV => pure (.next { c with status := statusRemove c.status OVERFLOW })
  | .CMP => do
      let addr ← get_operand_address c mode
      let value ← mem_read c addr
      let st := statusSet c.status CARRY (c.register_a ≥ value)
      let st := statusSet st ZERO (c.register_a == value)
      pure (.next { c with status := statusSet st NEGATIVE (value &&& 0x80 != 0) })
  | .CPX => do
      let addr ← get_operand_address c mode
      let value ← mem_read c addr
      let st := statusSet c.status CARRY (c.register_x ≥ value)
      let st := statusSet st ZERO (c.register_x == value)
      pure (.next { c with status := statusSet st NEGATIVE (value &&& 0x80 != 0) })
  | .CPY => do
      let addr ← get_operand_address c mode
      let value ← mem_read c addr
      let st := statusSet c.status CARRY (c.register_y ≥ value)
      let st := statusSet st ZERO (c.register_y == value)
      pure (.next { c with status := statusSet st NEGATIVE (value &&& 0x80 != 0) })
  | .DEC => do
      let addr ← get_operand_address c mode
      let value ← mem_read c addr
      let v := (value + 255) % 256
      let c1 ← mem_write c addr v
      pure (.next { c1 with status := update_zero_and_negative_flags c1.status v })
  | .DEX => pure (.next (set_register_x c ((c.register_x + 255) % 256)))
  | .DEY => pure (.next (set_register_y c ((c.register_y + 255) % 256)))
  | .EOR => do
      let addr ← get_operand_address c mode
      let value ← mem_read c addr
      pure (.next (set_register_a c (c.register_a ^^^ value)))
  | .INC => do
      let addr ← get_operand_address c mode
      let value ← mem_read c addr
      let v := (value + 1) % 256
      let c1 ← mem_write c addr v
      pure (.next { c1 with status := update_zero_and_negative_flags c1.status v })
  | .INX => pure (.next (set_register_x c ((c.register_x + 1) % 256)))
  | .INY => pure (.next (set_register_y c ((c.register_y + 255) % 256)))
  | .JMP => do
      let addr ←
        match mode with
        | .Absolute => get_operand_address c mode
        | .Other => do
            let addr ← mem_read_u16 c c.program_counter
            if addr &&& 0x00FF == 0x00FF then do
              let lo ← mem_read c addr
              let hi ← mem_read c (addr &&& 0xFF00)
              pure (lo + 256 * hi)
            else mem_read_u16 c addr
        | _ => none
      pure (.next { c with program_counter := addr })
  | .JSR => do
      let c1 ← stack_push_u16 c ((c.program_counter + 2 - 1) % 65536)
      let target ← mem_read_u16 c1 c1.program_counter
      pure (.next { c1 with program_counter := target })
  | .LDA => do
      let addr ← get_operand_address c mode
      let value ← mem_read c addr
      pure (.next (set_register_a c value))
  | .LDX => do
      let addr ← get_operand_address c mode
      let value ← mem_read c addr
      pure (.next (set_register_x c value))
  | .LDY => do
      let addr ← get_operand_address c mode
      let value ← mem_read c addr
      pure (.next (set_register_y c value))
  | .LSR =>
      (shiftArm c mode (fun st value =>
        (statusSet st CARRY (value &&& 1 == 1), value / 2))).map .next
  | .NOP => pure (.next c)
  | .ORA => do
      let addr ← get_operand_address c mode
      let value ← mem_read c addr
      pure (.next (set_register_a c (c.register_a ||| value)))
  | .PHA => (stack_push c c.register_a).map .next
  | .PHP => (execPHP c).map .next
  | .PLA => (stack_pop c).map (fun p => .next (set_register_a p.2 p.1))
  | .PLP => (execPLP c).map .next
  | .ROL =>
      (shiftArm c mode (fun st value =>
        let carry := if statusContains st CARRY then 1 else 0
        (statusSet st CARRY (value &&& 0x80 == 0x80),
         value * 2 % 256 ||| carry))).map .next
  | .ROR =>
      (shiftArm c mode (fun st value =>
        let carry := if statusContains st CARRY then 0x80 else 0
        (statusSet st CARRY (value &&& 1 == 1),
         value / 2 ||| carry))).map .next
  | .RTI => do
      let (value, c1) ← stack_pop c
      let c2 : CPU := { c1 with status := from_bits_truncate value }
      let (pc, c3) ← stack_pop_u16 c2
      pure (.next { c3 with program_counter := pc })
  | .RTS => do
      let (v, c1) ← stack_pop_u16 c
      pure (.next { c1 with program_counter := (v + 1) % 65536 })
  | .SBC => do
      let addr ← get_operand_address c mode
      let data ← mem_read c addr
      pure (.next (add_to_register_a c (255 - data % 256)))
  | .SEC => pure (.next { c with status := statusInsert c.status CARRY })
  | .SEI => pure (.next { c with status := statusInsert c.status INTERRUPT })
  | .STA => do
      let addr ← get_operand_address c mode
      (mem_write c addr c.register_a).map .next
  | .STX => do
      let addr ← get_operand_address c mode
      (mem_write c addr c.register_x).map .next
  | .STY => do
      let addr ← get_operand_address c mode
      (mem_write c addr c.register_y).map .next
  | .TAX => pure (.next (set_register_x c c.register_a))
  | .TAY => pure (.next (set_register_y c c.register_a))
  | .TSX => (execTSX c).map .next
  | .TXA => pure (.next (set_register_a c c.register_x))
  | _ => none

/-- One iteration of the `CPU::run` loop: fetch the opcode, advance `PC`
by 1, decode, execute, then — on every non-returning arm —
`program_counter += (command.len - 1)`. -/
def step (c : CPU) : Option StepOut := do
  let opscode ← mem_read c c.program_counter
  let c1 : CPU := { c with program_counter := (c.program_counter + 1) % 65536 }
  let command ← opcodeLookup opscode
  match ← execBody c1 command with
  | .halt c2 => pure (.halt c2)
  | .next c2 =>
      pure (.next { c2 with
        program_counter := (c2.program_counter + (command.len - 1)) % 65536 })

/-- A RAM image that holds the byte list `bs` from address 0 and zero
elsewhere (used to build concrete machine states). -/
def memFromList (bs : List Nat) : Nat → Nat := fun a => bs.getD a 0

/-- A sequence of `stack_push` calls, first element pushed first. -/
def pushList (c : CPU) : List Nat → Option CPU
  | [] => some c
  | b :: bs => do pushList (← stack_push c b) bs

/-- `n` consecutive `stack_pop` calls, returning the popped bytes in
pop order together with the final state. -/
def popList (c : CPU) : Nat → Option (List Nat × CPU)
  | 0 => some ([], c)
  | n + 1 => do
      let (v, c1) ← stack_pop c
      let (vs, c2) ← popList c1 n
      pure (v :: vs, c2)

/-- Overwrite the stack byte at unit offset `w` (a state with the same
`SP`, used to describe the effect of a push/pop pair). -/
def writeStack (c : CPU) (w b : Nat) : CPU :=
  { c with memory := fun a => if a = STACK + w then b else c.memory a }

/-- The 257-byte push sequence that defeats the LIFO law: the first byte
differs from the other 256, and the 257th push lands on the first
byte's cell because `SP` has wrapped all the way around. -/
def cexBytes : List Nat := 0 :: List.replicate 256 1

/-- States reachable from `CPU::default()` by `load`, `reset` and
executed instructions (each a completed iteration of the `run` loop,
including the final `BRK` iteration). -/
inductive Reachable : CPU → Prop where
  | base : Reachable cpuDefault
  | load {c c' : CPU} {prog : List Nat} :
      Reachable c → load c prog = some c' → Reachable c'
  | reset {c c' : CPU} : Reachable c → reset c = some c' → Reachable c'
  | step {c : CPU} {o : StepOut} : Reachable c → step c = some o → Reachable (outCPU o)

/-! ### Bit-5 (mask 0x20) bookkeeping for the status register -/

lemma testBit_and_eq_false {x y : Nat} (h : x &&& y = 0) (i : Nat) :
    (x.testBit i && y.testBit i) = false := by
  have := congrArg (fun n => Nat.testBit n i) h
  simpa [Nat.testBit_land, Nat.zero_testBit] using this

lemma statusInsert_bit5 {p f : Nat} (hp : p &&& 32 = 0) (hf : f &&& 32 = 0) :
    statusInsert p f &&& 32 = 0 := by
  apply Nat.eq_of_testBit_eq
  intro i
  have h1 := testBit_and_eq_false hp i
  have h2 := testBit_and_eq_false hf i
  simp only [statusInsert, Nat.testBit_land, Nat.testBit_lor, Nat.zero_testBit]
  cases hx : p.testBit i <;> cases hy : f.testBit i <;>
    cases hz : (32 : Nat).testBit i <;> simp_all

lemma and_bit5 {p : Nat} (m : Nat) (hp : p &&& 32 = 0) :
    (p &&& m) &&& 32 = 0 := by
  apply Nat.eq_of_testBit_eq
  intro i
  have h1 := testBit_and_eq_false hp i
  simp only [Nat.testBit_land, Nat.zero_testBit]
  cases hx : p.testBit i <;> cases hy : m.testBit i <;>
    cases hz : (32 : Nat).testBit i <;> simp_all

lemma statusRemove_bit5 {p : Nat} (f : Nat) (hp : p &&& 32 = 0) :
    statusRemove p f &&& 32 = 0 :=
  and_bit5 _ hp

lemma statusSet_bit5 {p f : Nat} (hp : p &&& 32 = 0) (hf : f &&& 32 = 0)
    (b : Bool) : statusSet p f b &&& 32 = 0 := by
  cases b
  · exact statusRemove_bit5 f hp
  · exact statusInsert_bit5 hp hf

lemma from_bits_truncate_bit5 (v : Nat) : from_bits_truncate v &&& 32 = 0 := by
  apply Nat.eq_of_testBit_eq
  intro i
  have h2 : ((0xDF : Nat) &&& 32) = 0 := by decide
  have h1 := testBit_and_eq_false h2 i
  simp only [from_bits_truncate, ALL_FLAGS, Nat.testBit_land, Nat.zero_testBit]
  cases hx : v.testBit i <;> cases hy : (0xDF : Nat).testBit i <;>
    cases hz : (32 : Nat).testBit i <;> simp_all

lemma update_zn_bit5 {p : Nat} (hp : p &&& 32 = 0) (v : Nat) :
    update_zero_and_negative_flags p v &&& 32 = 0 :=
  statusSet_bit5 (statusSet_bit5 hp (by decide) _) (by decide) _

lemma set_register_a_bit5 {c : CPU} (h : c.status &&& 32 = 0) (v : Nat) :
    (set_register_a c v).status &&& 32 = 0 :=
  update_zn_bit5 h v

lemma set_register_x_bit5 {c : CPU} (h : c.status &&& 32 = 0) (v : Nat) :
    (set_register_x c v).status &&& 32 = 0 :=
  update_zn_bit5 h v

lemma set_register_y_bit5 {c : CPU} (h : c.status &&& 32 = 0) (v : Nat) :
    (set_register_y c v).status &&& 32 = 0 :=
  update_zn_bit5 h v

lemma add_to_register_a_bit5 {c : CPU} (h : c.status &&& 32 = 0) (d : Nat) :
    (add_to_register_a c d).status &&& 32 = 0 := by
  unfold add_to_register_a
  exact update_zn_bit5 (statusSet_bit5 (statusSet_bit5 h (by decide) _) (by decide) _) _

/-! ### Helpers that do not touch the status register -/

lemma mem_write_status {c c' : CPU} {a d : Nat} (h : mem_write c a d = some c') :
    c'.status = c.status := by
  unfold mem_write at h
  split at h
  · cases h; rfl
  · cases h

lemma mem_write_stack_pointer {c c' : CPU} {a d : Nat}
    (h : mem_write c a d = some c') : c'.stack_pointer = c.stack_pointer := by
  unfold mem_write at h
  split at h
  · cases h; rfl
  · cases h

lemma mem_write_u16_status {c c' : CPU} {a d : Nat}
    (h : mem_write_u16 c a d = some c') : c'.status = c.status := by
  simp only [mem_write_u16, Option.bind_eq_bind, Option.bind_eq_some] at h
  obtain ⟨c1, hb, h⟩ := h
  rw [mem_write_status h, mem_write_status hb]

lemma stack_push_status {c c' : CPU} {v : Nat} (h : stack_push c v = some c') :
    c'.status = c.status := by
  simp only [stack_push, Option.bind_eq_bind, Option.bind_eq_some,
    Option.pure_def, Option.some.injEq] at h
  obtain ⟨c1, hb, rfl⟩ := h
  show c1.status = c.status
  exact mem_write_status hb

lemma stack_push_u16_status {c c' : CPU} {v : Nat}
    (h : stack_push_u16 c v = some c') : c'.status = c.status := by
  simp only [stack_push_u16, Option.bind_eq_bind, Option.bind_eq_some] at h
  obtain ⟨c1, hb, h⟩ := h
  rw [stack_push_status h, stack_push_status hb]

lemma stack_pop_status {c c' : CPU} {v : Nat} (h : stack_pop c = some (v, c')) :
    c'.status = c.status := by
  simp only [stack_pop, Option.map_eq_some', Prod.mk.injEq] at h
  obtain ⟨w, _, _, h2⟩ := h
  rw [← h2]

lemma stack_pop_u16_status {c c' : CPU} {v : Nat}
    (h : stack_pop_u16 c = some (v, c')) : c'.status = c.status := by
  simp only [stack_pop_u16, Option.bind_eq_bind, Option.bind_eq_some,
    Option.pure_def, Option.some.injEq, Prod.mk.injEq] at h
  obtain ⟨⟨lo, c1⟩, hb, ⟨hi, c2⟩, hb2, _, h2⟩ := h
  rw [← h2, stack_pop_status hb2, stack_pop_status hb]

lemma shiftArm_bit5 {c c' : CPU} {mode : AddressingMode}
    {f : Nat → Nat → Nat × Nat}
    (hf : ∀ st v, st &&& 32 = 0 → (f st v).1 &&& 32 = 0)
    (h : c.status &&& 32 = 0) (he : shiftArm c mode f = some c') :
    c'.status &&& 32 = 0 := by
  unfold shiftArm at he
  split at he
  · simp only [Option.some.injEq] at he
    subst he
    exact set_register_a_bit5 (hf _ _ h) _
  · simp only [Option.bind_eq_bind, Option.bind_eq_some, Option.pure_def,
      Option.some.injEq] at he
    obtain ⟨addr, _, value, _, c1, hw, rfl⟩ := he
    show update_zero_and_negative_flags c1.status _ &&& 32 = 0
    exact update_zn_bit5 (by rw [mem_write_status hw]; exact hf _ _ h) _

lemma execBody_bit5 {c : CPU} {cmd : OpCode} {out : StepOut}
    (h : c.status &&& 32 = 0) (he : execBody c cmd = some out) :
    (outCPU out).status &&& 32 = 0 := by
  obtain ⟨code, instr, len, cycles, mode⟩ := cmd
  unfold execBody at he
  cases instr <;>
    simp only [Option.bind_eq_bind, Option.bind_eq_some, Option.map_eq_some',
      Option.pure_def, Option.some.injEq] at he
  case ADC =>
    obtain ⟨addr, _, value, _, rfl⟩ := he
    exact add_to_register_a_bit5 h _
  case ASL =>
    obtain ⟨c1, hs, rfl⟩ := he
    exact shiftArm_bit5 (fun st v hst => statusSet_bit5 hst (by decide) _) h hs
  case AND =>
    obtain ⟨addr, _, value, _, rfl⟩ := he
    exact set_register_a_bit5 h _
  case BIT =>
    obtain ⟨addr, _, value, _, rfl⟩ := he
    exact statusSet_bit5 (update_zn_bit5 h _) (by decide) _
  case BRK =>
    subst he
    exact statusInsert_bit5 h (by decide)
  case CLC =>
    subst he
    exact statusRemove_bit5 _ h
  case CLI =>
    subst he
    exact statusRemove_bit5 _ h
  case CLV =>
    subst he
    exact statusRemove_bit5 _ h
  case CMP =>
    obtain ⟨addr, _, value, _, rfl⟩ := he
    exact statusSet_bit5 (statusSet_bit5 (statusSet_bit5 h (by decide) _)
      (by decide) _) (by decide) _
  case CPX =>
    obtain ⟨addr, _, value, _, rfl⟩ := he
    exact statusSet_bit5 (statusSet_bit5 (statusSet_bit5 h (by decide) _)
      (by decide) _) (by decide) _
  case CPY =>
    obtain ⟨addr, _, value, _, rfl⟩ := he
    exact statusSet_bit5 (statusSet_bit5 (statusSet_bit5 h (by decide) _)
      (by decide) _) (by decide) _
  case DEC =>
    obtain ⟨addr, _, value, _, c1, hw, rfl⟩ := he
    show update_zero_and_negative_flags c1.status _ &&& 32 = 0
    exact update_zn_bit5 (by rw [mem_write_status hw]; exact h) _
  case DEX =>
    subst he
    exact set_register_x_bit5 h _
  case DEY =>
    subst he
    exact set_register_y_bit5 h _
  case EOR =>
    obtain ⟨addr, _, value, _, rfl⟩ := he
    exact set_register_a_bit5 h _
  case INC =>
    obtain ⟨addr, _, value, _, c1, hw, rfl⟩ := he
    show update_zero_and_negative_flags c1.status _ &&& 32 = 0
    exact update_zn_bit5 (by rw [mem_write_status hw]; exact h) _
  case INX =>
    subst he
    exact set_register_x_bit5 h _
  case INY =>
    subst he
    exact set_register_y_bit5 h _
  case JMP =>
    cases mode <;>
      simp only [Option.bind_eq_bind, Option.bind_eq_some, Option.none_bind,
        Option.some.injEq] at he
    case Absolute =>
      obtain ⟨addr, _, rfl⟩ := he
      exact h
    case Other =>
      obtain ⟨addr, _, he⟩ := he
      split at he <;>
        simp only [Option.bind_eq_bind, Option.bind_eq_some,
          Option.some.injEq] at he
      · obtain ⟨lo, _, hi, _, y, _, rfl⟩ := he
        exact h
      · obtain ⟨y, _, rfl⟩ := he
        exact h
    all_goals exact Option.noConfusion he
  case JSR =>
    obtain ⟨c1, hp, target, _, rfl⟩ := he
    show c1.status &&& 32 = 0
    rw [stack_push_u16_status hp]
    exact h
  case LDA =>
    obtain ⟨addr, _, value, _, rfl⟩ := he
    exact set_register_a_bit5 h _
  case LDX =>
    obtain ⟨addr, _, value, _, rfl⟩ := he
    exact set_register_x_bit5 h _
  case LDY =>
    obtain ⟨addr, _, value, _, rfl⟩ := he
    exact set_register_y_bit5 h _
  case LSR =>
    obtain ⟨c1, hs, rfl⟩ := he
    exact shiftArm_bit5 (fun st v hst => statusSet_bit5 hst (by decide) _) h hs
  case NOP =>
    subst he
    exact h
  case ORA =>
    obtain ⟨addr, _, value, _, rfl⟩ := he
    exact set_register_a_bit5 h _
  case PHA =>
    obtain ⟨c1, hp, rfl⟩ := he
    show c1.status &&& 32 = 0
    rw [stack_push_status hp]
    exact h
  case PHP =>
    obtain ⟨c1, hp, rfl⟩ := he
    show c1.status &&& 32 = 0
    rw [stack_push_status hp]
    exact h
  case PLA =>
    obtain ⟨⟨v, c1⟩, hp, rfl⟩ := he
    exact set_register_a_bit5 (by rw [stack_pop_status hp]; exact h) _
  case PLP =>
    obtain ⟨c1, hp, rfl⟩ := he
    simp only [execPLP, Option.map_eq_some'] at hp
    obtain ⟨⟨v, c2⟩, _, rfl⟩ := hp
    exact from_bits_truncate_bit5 _
  case ROL =>
    obtain ⟨c1, hs, rfl⟩ := he
    exact shiftArm_bit5 (fun st v hst => statusSet_bit5 hst (by decide) _) h hs
  case ROR =>
    obtain ⟨c1, hs, rfl⟩ := he
    exact shiftArm_bit5 (fun st v hst => statusSet_bit5 hst (by decide) _) h hs
  case RTI =>
    obtain ⟨⟨value, c1⟩, _, ⟨pc, c3⟩, hp2, rfl⟩ := he
    show c3.status &&& 32 = 0
    rw [stack_pop_u16_status hp2]
    exact from_bits_truncate_bit5 _
  case RTS =>
    obtain ⟨⟨v, c1⟩, hp, rfl⟩ := he
    show c1.status &&& 32 = 0
    rw [stack_pop_u16_status hp]
    exact h
  case SBC =>
    obtain ⟨addr, _, data, _, rfl⟩ := he
    exact add_to_register_a_bit5 h _
  case SEC =>
    subst he
    exact statusInsert_bit5 h (by decide)
  case SEI =>
    subst he
    exact statusInsert_bit5 h (by decide)
  case STA =>
    obtain ⟨addr, _, c1, hw, rfl⟩ := he
    show c1.status &&& 32 = 0
    rw [mem_write_status hw]
    exact h
  case STX =>
    obtain ⟨addr, _, c1, hw, rfl⟩ := he
    show c1.status &&& 32 = 0
    rw [mem_write_status hw]
    exact h
  case STY =>
    obtain ⟨addr, _, c1, hw, rfl⟩ := he
    show c1.status &&& 32 = 0
    rw [mem_write_status hw]
    exact h
  case TAX =>
    subst he
    exact set_register_x_bit5 h _
  case TAY =>
    subst he
    exact set_register_y_bit5 h _
  case TSX =>
    obtain ⟨c1, hp, rfl⟩ := he
    simp only [execTSX, Option.map_eq_some'] at hp
    obtain ⟨⟨v, c2⟩, hp2, rfl⟩ := hp
    exact set_register_x_bit5 (by rw [stack_pop_status hp2]; exact h) _
  case TXA =>
    subst he
    exact set_register_a_bit5 h _
  all_goals exact Option.noConfusion he

lemma step_bit5 {c : CPU} {out : StepOut} (h : c.status &&& 32 = 0)
    (he : step c = some out) : (outCPU out).status &&& 32 = 0 := by
  simp only [step, Option.bind_eq_bind, Option.bind_eq_some] at he
  obtain ⟨opscode, _, command, _, out1, hb, hm⟩ := he
  have h1 : (outCPU out1).status &&& 32 = 0 :=
    execBody_bit5
      (c := { c with program_counter := (c.program_counter + 1) % 65536 }) h hb
  cases out1 with
  | halt c2 =>
      simp only [Option.pure_def, Option.some.injEq] at hm
      subst hm
      exact h1
  | next c2 =>
      simp only [Option.pure_def, Option.some.injEq] at hm
      subst hm
      exact h1

lemma load_status {c c' : CPU} {prog : List Nat} (h : load c prog = some c') :
    c'.status = c.status := by
  unfold load at h
  split at h
  · rw [mem_write_u16_status h]
  · cases h

lemma reset_status {c c' : CPU} (h : reset c = some c') : c'.status = 0 := by
  simp only [reset, Option.bind_eq_bind, Option.bind_eq_some, Option.pure_def,
    Option.some.injEq] at h
  obtain ⟨pc, _, rfl⟩ := h
  rfl

/-- C10: in every CPU state reachable from the default-constructed state
by `load`, `reset` and executed instructions (including `PLP` and `RTI`,
which load `P` from memory through `from_bits_truncate`), bit 5
(mask 0x20) of the status register is 0. -/
theorem reachable_status_bit5_clear {c : CPU} (h : Reachable c) :
    c.status &&& 0x20 = 0 := by
  induction h with
  | base => rfl
  | load _ hl ih => rw [load_status hl]; exact ih
  | reset _ hl _ => rw [reset_status hl]; decide
  | step _ hs ih => exact step_bit5 ih hs

/-- Witness for C10 at the concrete reachable state `cpuDefault`. -/
theorem reachable_status_bit5_clear_witness : cpuDefault.status &&& 0x20 = 0 :=
  reachable_status_bit5_clear Reachable.base

/-- C1: executing `JMP $0005` (absolute) or `JSR $0005` does not end the
step with `PC = 0x0005`: the run loop's final `PC += len - 1` is applied
to jumps as well, so the step ends with `PC = 0x0007 = target + 2`. -/
theorem jmp_jsr_pc_plus_two :
    ((step { cpuDefault with memory := memFromList [0x4C, 0x05, 0x00] }).map
        (fun o => (outCPU o).program_counter) = some 7) ∧
    ((step { cpuDefault with memory := memFromList [0x20, 0x05, 0x00] }).map
        (fun o => (outCPU o).program_counter) = some 7) ∧
    (7 : Nat) ≠ 0x0005 :=
  ⟨rfl, rfl, by decide⟩

/-- C2: reads below `0xFFFF` are defined, but the RAM array has only
0xFFFF bytes, so reading or writing address `0xFFFF` is an out-of-bounds
panic (`none`), contradicting totality of the memory bus. -/
theorem memory_not_total :
    (∀ (c : CPU) (a : Nat), a < 0xFFFF → ∃ v, mem_read c a = some v) ∧
    mem_read cpuDefault 0xFFFF = none ∧
    mem_write cpuDefault 0xFFFF 0 = none := by
  refine ⟨fun c a ha => ⟨c.memory a, ?_⟩, rfl, rfl⟩
  simp [mem_read, MEM_LEN, ha]

/-- Witness for C2's universally quantified part at a concrete address. -/
theorem memory_not_total_witness : ∃ v, mem_read cpuDefault 0x1234 = some v :=
  memory_not_total.1 cpuDefault 0x1234 (by decide)

/-- C3: every one of the eight branch opcodes falls into the
`_ => todo!()` arm of `CPU::run`, so executing any of them panics
(`none`) instead of performing the branch. -/
theorem branch_opcodes_panic :
    step { cpuDefault with memory := memFromList [0x90, 0x03] } = none ∧
    step { cpuDefault with memory := memFromList [0xB0, 0x03] } = none ∧
    step { cpuDefault with memory := memFromList [0xF0, 0x03] } = none ∧
    step { cpuDefault with memory := memFromList [0xD0, 0x03] } = none ∧
    step { cpuDefault with memory := memFromList [0x30, 0x03] } = none ∧
    step { cpuDefault with memory := memFromList [0x10, 0x03] } = none ∧
    step { cpuDefault with memory := memFromList [0x50, 0x03] } = none ∧
    step { cpuDefault with memory := memFromList [0x70, 0x03] } = none :=
  ⟨rfl, rfl, rfl, rfl, rfl, rfl, rfl, rfl⟩

/-- C5: `CMP` with `A = 0` against operand `M = 1` leaves the status
byte `0` — in particular `N = 0`, taken from `M & 0x80` — although the
subtraction result `(0 - 1) mod 256 = 255` has bit 7 set. -/
theorem cmp_negative_from_operand :
    ((step { cpuDefault with memory := memFromList [0xC9, 0x01] }).map
        (fun o => (outCPU o).status) = some 0) ∧
    ((0 + 256 - 1) % 256) &&& 0x80 ≠ 0 :=
  ⟨rfl, by decide⟩

/-- C6: `INY` with `Y = 5` produces `Y = 4`: the source decrements `Y`
instead of incrementing it. -/
theorem iny_decrements :
    ((step { cpuDefault with
              register_y := 5,
              memory := memFromList [0xC8] }).map
        (fun o => (outCPU o).register_y) = some 4) ∧
    (4 : Nat) ≠ (5 + 1) % 256 :=
  ⟨rfl, by decide⟩

/-- C9: `TSX` with `SP = 0x50` and `mem[0x0151] = 0x42` sets
`X = 0x42` (a byte popped from the stack) and increments `SP` to
`0x51`, instead of copying `SP` into `X` and leaving `SP` unchanged. -/
theorem tsx_pops_stack :
    ((step { cpuDefault with
              stack_pointer := 0x50,
              memory := fun a => if a = 0 then 0xBA else
                if a = 0x0151 then 0x42 else 0 }).map
        (fun o => ((outCPU o).register_x, (outCPU o).stack_pointer))
      = some (0x42, 0x51)) ∧
    ((0x42, 0x51) : Nat × Nat) ≠ (0x50, 0x50) :=
  ⟨rfl, by decide⟩

lemma byte_lor (lo hi : Nat) (h : lo < 256) :
    lo ||| hi <<< 8 = lo + 256 * hi := by
  have h2 : lo ||| hi <<< 8 = 2 ^ 8 * hi ||| lo := by
    rw [Nat.lor_comm, Nat.shiftLeft_eq, Nat.mul_comm]
  rw [h2, ← Nat.mul_add_lt_is_or (show lo < 2 ^ 8 from h) hi]
  omega

/-- C4: for every address whose successor is still inside the RAM array,
`mem_read_u16` returns `lo | (hi <<< 8)` with `lo` read at the lower
address — little-endian as claimed; but at `a = 0xFFFE` (where `a + 1`
does not wrap past `0xFFFF`) the high-byte read indexes the 0xFFFF-byte
array out of bounds and the source panics. -/
theorem read16_little_endian :
    (∀ (c : CPU) (a : Nat), a + 1 < 0xFFFF → (∀ i, c.memory i < 256) →
      ∃ lo hi, mem_read c a = some lo ∧ mem_read c (a + 1) = some hi ∧
        mem_read_u16 c a = some (lo ||| hi <<< 8)) ∧
    mem_read_u16 cpuDefault 0xFFFE = none := by
  refine ⟨fun c a ha hm => ⟨c.memory a, c.memory (a + 1), ?_, ?_, ?_⟩, rfl⟩
  · simp only [mem_read, MEM_LEN]
    rw [if_pos (by omega)]
  · simp only [mem_read, MEM_LEN]
    rw [if_pos (by omega)]
  · have h1 : (a + 1) % 65536 = a + 1 := Nat.mod_eq_of_lt (by omega)
    simp only [mem_read_u16, mem_read, MEM_LEN, h1, Option.bind_eq_bind]
    rw [if_pos (by omega), if_pos (by omega)]
    simp only [Option.some_bind, Option.pure_def, Option.some.injEq]
    rw [byte_lor _ _ (hm a)]

/-- Witness for C4's universally quantified part at a concrete state and
address. -/
theorem read16_little_endian_witness :
    ∃ lo hi, mem_read cpuDefault 5 = some lo ∧
      mem_read cpuDefault 6 = some hi ∧
      mem_read_u16 cpuDefault 5 = some (lo ||| hi <<< 8) :=
  read16_little_endian.1 cpuDefault 5 (by decide)
    (fun i => by show (0 : Nat) < 256; decide)

/-! ### Explicit forms of a push and a pop (C7, C8) -/

lemma stack_push_eq (c : CPU) (v : Nat) (h : c.stack_pointer < 256) :
    stack_push c v = some { c with
      memory := fun a => if a = STACK + c.stack_pointer then v else c.memory a,
      stack_pointer := (c.stack_pointer + 255) % 256 } := by
  unfold stack_push mem_write
  rw [if_pos (by simp only [STACK, MEM_LEN]; omega)]
  rfl

lemma stack_pop_eq (c : CPU) (h : c.stack_pointer < 256) :
    stack_pop c = some (c.memory (STACK + (c.stack_pointer + 1) % 256),
      { c with stack_pointer := (c.stack_pointer + 1) % 256 }) := by
  simp only [stack_pop, mem_read]
  rw [if_pos (by simp only [STACK, MEM_LEN]; omega)]
  rfl

lemma and_df_eq_self : ∀ p < 256, p &&& 32 = 0 → p &&& 0xDF = p := by decide

/-- C7 counterexample: with `P = 0` and `SP = 0xFF`, executing `PHP`
stores the raw byte `0` at `0x01FF`; bits 4 and 5 of the pushed byte are
not forced to 1. -/
theorem php_pushes_raw_status :
    ((step { cpuDefault with memory := memFromList [0x08] }).map
        (fun o => (outCPU o).memory 0x01FF) = some 0) ∧
    (0 : Nat) &&& 0x30 ≠ 0x30 :=
  ⟨rfl, by decide⟩

/-- C7 (amended): `PHP` pushes the status byte unchanged, and `PLP` pops
a byte keeping every declared flag bit (bit 4 included) while clearing
bit 5; since a `CpuStatus` value never has bit 5 set, `PHP` immediately
followed by `PLP` restores every bit of `P` and the stack pointer. -/
theorem php_plp_roundtrip (c : CPU) (hsp : c.stack_pointer < 256)
    (hst : c.status < 256) (hb5 : c.status &&& 0x20 = 0) :
    ((execPHP c).bind execPLP).map (fun c2 => (c2.status, c2.stack_pointer))
      = some (c.status, c.stack_pointer) := by
  have hsp2 : ((c.stack_pointer + 255) % 256 + 1) % 256 = c.stack_pointer := by
    omega
  simp only [execPHP]
  rw [stack_push_eq c c.status hsp]
  simp only [Option.some_bind, execPLP]
  rw [stack_pop_eq]
  · simp only [Option.map_some', Option.some.injEq, Prod.mk.injEq]
    refine ⟨?_, ?_⟩
    · show from_bits_truncate _ = c.status
      rw [hsp2, if_pos rfl]
      exact and_df_eq_self _ hst hb5
    · show ((c.stack_pointer + 255) % 256 + 1) % 256 = c.stack_pointer
      exact hsp2
  · show (c.stack_pointer + 255) % 256 < 256
    omega

/-- Witness for C7's amended round-trip at the default state. -/
theorem php_plp_roundtrip_witness :
    ((execPHP cpuDefault).bind execPLP).map
        (fun c2 => (c2.status, c2.stack_pointer))
      = some (cpuDefault.status, cpuDefault.stack_pointer) :=
  php_plp_roundtrip cpuDefault (by decide) (by decide) (by decide)

lemma pushList_snoc (c : CPU) (bs : List Nat) (b : Nat) :
    pushList c (bs ++ [b]) = (pushList c bs).bind (fun s => stack_push s b) := by
  induction bs generalizing c with
  | nil => simp [pushList]
  | cons a as ih =>
      rcases hp : stack_push c a with _ | s
      · simp [pushList, hp]
      · simp [pushList, hp, ih s]

lemma pushList_sp_lt {c C : CPU} {bs : List Nat} (h : c.stack_pointer < 256)
    (hp : pushList c bs = some C) : C.stack_pointer < 256 := by
  induction bs generalizing c with
  | nil =>
      simp only [pushList, Option.some.injEq] at hp
      rw [← hp]
      exact h
  | cons b bs ih =>
      simp only [pushList, Option.bind_eq_bind, Option.bind_eq_some] at hp
      obtain ⟨c1, hpush, hrest⟩ := hp
      rw [stack_push_eq c b h] at hpush
      obtain rfl := Option.some.inj hpush
      exact ih (by show (c.stack_pointer + 255) % 256 < 256; omega) hrest

lemma popList_writeStack {c : CPU} {w b : Nat} (hsp : c.stack_pointer < 256)
    (n : Nat)
    (hcond : ∀ i, 1 ≤ i → i ≤ n → (c.stack_pointer + i) % 256 ≠ w) :
    popList (writeStack c w b) n =
      (popList c n).map (fun p => (p.1, writeStack p.2 w b)) := by
  induction n generalizing c with
  | zero => simp [popList, writeStack]
  | succ n ih =>
      have hne : STACK + (c.stack_pointer + 1) % 256 ≠ STACK + w := by
        have h1 := hcond 1 le_rfl (by omega)
        simp only [STACK]
        omega
      simp only [popList]
      rw [stack_pop_eq (writeStack c w b)
        (show c.stack_pointer < 256 from hsp)]
      rw [stack_pop_eq c hsp]
      have hsp1 : (writeStack c w b).stack_pointer = c.stack_pointer := rfl
      rw [hsp1]
      have hval : (writeStack c w b).memory (STACK + (c.stack_pointer + 1) % 256)
          = c.memory (STACK + (c.stack_pointer + 1) % 256) := by
        simp only [writeStack]
        rw [if_neg hne]
      rw [hval]
      simp only [Option.bind_eq_bind, Option.some_bind]
      have hcomm : ({ writeStack c w b with
          stack_pointer := (c.stack_pointer + 1) % 256 } : CPU)
          = writeStack { c with stack_pointer := (c.stack_pointer + 1) % 256 } w b :=
        rfl
      rw [hcomm]
      have ih2 := ih (c := { c with stack_pointer := (c.stack_pointer + 1) % 256 })
        (by show (c.stack_pointer + 1) % 256 < 256; omega)
        (by intro i h1 h2
            show ((c.stack_pointer + 1) % 256 + i) % 256 ≠ w
            have h3 := hcond (i + 1) (by omega) (by omega)
            omega)
      rw [ih2]
      rcases hpl : popList { c with stack_pointer := (c.stack_pointer + 1) % 256 } n
        with _ | ⟨vs, c2⟩
      · simp
      · simp [writeStack]

lemma stack_pop_push (c : CPU) (b : Nat) (h : c.stack_pointer < 256) :
    (stack_push c b).bind stack_pop
      = some (b, writeStack c c.stack_pointer b) := by
  rw [stack_push_eq c b h]
  simp only [Option.some_bind]
  rw [stack_pop_eq _ (show (c.stack_pointer + 255) % 256 < 256 by omega)]
  have hspP : ((c.stack_pointer + 255) % 256 + 1) % 256 = c.stack_pointer := by
    omega
  rw [hspP]
  simp [writeStack]

/-- C8 counterexample: pushing the 257 bytes of `cexBytes` (a 0 followed
by 256 ones) and popping 257 times does not return the reversed
sequence — the 257th push overwrote the first byte's stack cell. -/
theorem stack_lifo_overflow_cex :
    ((pushList cpuDefault cexBytes).bind
        (fun c1 => (popList c1 cexBytes.length).map Prod.fst))
      ≠ some cexBytes.reverse := by decide

/-- C8 (amended): for every starting state with an 8-bit `SP` and every
sequence of at most 256 bytes, pushing them all and popping as many
times returns the bytes in reverse order and restores `SP`; each push
decrements `SP` mod 256 and each pop increments it mod 256.  (With more
than 256 pushes the 256-byte stack page wraps and overwrites itself, as
the counterexample shows.) -/
theorem stack_push_pop_lifo (c : CPU) (bs : List Nat)
    (hsp : c.stack_pointer < 256) (hk : bs.length ≤ 256) :
    (∃ c1 c2, pushList c bs = some c1 ∧
       popList c1 bs.length = some (bs.reverse, c2) ∧
       c2.stack_pointer = c.stack_pointer) ∧
    (∀ b c', stack_push c b = some c' →
       c'.stack_pointer = (c.stack_pointer + 255) % 256) ∧
    (∀ v c', stack_pop c = some (v, c') →
       c'.stack_pointer = (c.stack_pointer + 1) % 256) := by
  refine ⟨?_, ?_, ?_⟩
  · induction bs using List.reverseRecOn with
    | nil => exact ⟨c, c, rfl, rfl, rfl⟩
    | append_singleton bs b ih =>
        obtain ⟨c1, c2, hpush, hpop, hsp2⟩ := ih (by simp at hk; omega)
        have hc1sp : c1.stack_pointer < 256 := pushList_sp_lt hsp hpush
        have hlen : bs.length ≤ 255 := by simp at hk; omega
        have hpl : pushList c (bs ++ [b]) = stack_push c1 b := by
          rw [pushList_snoc, hpush]
          rfl
        obtain ⟨P, hP⟩ : ∃ P, stack_push c1 b = some P :=
          ⟨_, stack_push_eq c1 b hc1sp⟩
        have hpop1 : stack_pop P = some (b, writeStack c1 c1.stack_pointer b) := by
          have hpp := stack_pop_push c1 b hc1sp
          rw [hP, Option.some_bind] at hpp
          exact hpp
        refine ⟨P, writeStack c2 c1.stack_pointer b, by rw [hpl, hP], ?_, ?_⟩
        · rw [show (bs ++ [b]).length = bs.length + 1 by simp]
          simp only [popList]
          rw [hpop1]
          simp only [Option.bind_eq_bind, Option.some_bind]
          rw [popList_writeStack hc1sp bs.length
            (by intro i h1 h2; omega), hpop]
          simp [List.reverse_append]
        · show c2.stack_pointer = c.stack_pointer
          exact hsp2
  · intro b c' hpush'
    rw [stack_push_eq c b hsp] at hpush'
    obtain rfl := Option.some.inj hpush'
    rfl
  · intro v c' hpop'
    rw [stack_pop_eq c hsp] at hpop'
    simp only [Option.some.injEq, Prod.mk.injEq] at hpop'
    obtain ⟨_, rfl⟩ := hpop'
    rfl

/-- Witness for C8's amended LIFO law on a concrete two-byte sequence. -/
theorem stack_push_pop_lifo_witness :
    (∃ c1 c2, pushList cpuDefault [3, 7] = some c1 ∧
       popList c1 2 = some ([7, 3], c2) ∧
       c2.stack_pointer = cpuDefault.stack_pointer) ∧
    (∀ b c', stack_push cpuDefault b = some c' →
       c'.stack_pointer = (cpuDefault.stack_pointer + 255) % 256) ∧
    (∀ v c', stack_pop cpuDefault = some (v, c') →
       c'.stack_pointer = (cpuDefault.stack_pointer + 1) % 256) := by
  simpa using stack_push_pop_lifo cpuDefault [3, 7] (by decide) (by decide)

end NesEmu
